import Mathlib

/-!
Verification of the Si5351 frequency-planning and register-encoding core
(si5351.cpp): a shallow embedding of the planner functions si5351_Calc and
si5351_CalcIQ, the output/PLL programming functions si5351_SetupOutput and
si5351_SetupPLL, and the register-block writer si5351_writeBulk, together with
theorems about error bounds, parameter invariants and the emitted register
writes.

C `int32_t` arithmetic is embedded as unbounded Int: no intermediate value of
the translated code can leave the int32 range on the inputs the theorems
quantify over (the planners clamp Fclk first, and every product stays below
2^31), so overflow reduction is not needed.  C's truncating integer division
and remainder are Int.tdiv and Int.tmod; C's `>> 20` on int32 is the
arithmetic shift Int.shiftRight.
-/

/-- Values of the si5351RDiv_t enum.  Modelled from the spec: si5351.h is not
part of src/; per the spec's data model an R-divider exponent n means the
output is divided by 2^n, SI5351_R_DIV_1 performs no division and
SI5351_R_DIV_64 divides by 64, so the two enum values used by the code are the
exponents 0 and 6 (the same 3-bit field written to the register block). -/
def SI5351_R_DIV_1 : Nat := 0

/-- R-divider enum value for divide-by-64, exponent 6 (see SI5351_R_DIV_1). -/
def SI5351_R_DIV_64 : Nat := 6

/-- Register addresses.  Modelled from the spec: si5351.h is not part of src/;
the addresses are fixed by the spec's register map (output enable 3, channel
0/1/2 control 16/17/18, channels 3-7 control 19-23, PLL reset 177, multisynth
0/1/2 parameter base 42/50/58, channel 0/1/2 phase offset 165/166/167, PLL-A/B
parameter base 26/34 appearing literally in si5351.cpp). -/
def SI5351_REGISTER_16_CLK0_CONTROL : Nat := 16

/-- Channel 1 control register (see SI5351_REGISTER_16_CLK0_CONTROL). -/
def SI5351_REGISTER_17_CLK1_CONTROL : Nat := 17

/-- Channel 2 control register (see SI5351_REGISTER_16_CLK0_CONTROL). -/
def SI5351_REGISTER_18_CLK2_CONTROL : Nat := 18

/-- Channel 6 control register, reused as the PLL-A integer-mode flag. -/
def SI5351_REGISTER_22_CLK6_CONTROL : Nat := 22

/-- Channel 7 control register, reused as the PLL-B integer-mode flag. -/
def SI5351_REGISTER_23_CLK7_CONTROL : Nat := 23

/-- Multisynth 0 parameter block base address. -/
def SI5351_REGISTER_42_MULTISYNTH0_PARAMETERS_1 : Nat := 42

/-- Multisynth 1 parameter block base address. -/
def SI5351_REGISTER_50_MULTISYNTH1_PARAMETERS_1 : Nat := 50

/-- Multisynth 2 parameter block base address. -/
def SI5351_REGISTER_58_MULTISYNTH2_PARAMETERS_1 : Nat := 58

/-- Channel 0 phase offset register. -/
def SI5351_REGISTER_165_CLK0_INITIAL_PHASE_OFFSET : Nat := 165

/-- Channel 1 phase offset register. -/
def SI5351_REGISTER_166_CLK1_INITIAL_PHASE_OFFSET : Nat := 166

/-- Channel 2 phase offset register. -/
def SI5351_REGISTER_167_CLK2_INITIAL_PHASE_OFFSET : Nat := 167

/-- PLL reset register. -/
def SI5351_REGISTER_177_PLL_RESET : Nat := 177

/-- The si5351PLL_t enum: which of the two PLLs is addressed. -/
inductive si5351PLL where
  | A : si5351PLL
  | B : si5351PLL
deriving DecidableEq

/-- The si5351PLLConfig_t struct: PLL feedback multiplier mult + num/denom. -/
structure si5351PLLConfig where
  mult : Int
  num : Int
  denom : Int
  allowIntegerMode : Bool
deriving DecidableEq

/-- The si5351OutputConfig_t struct: output divider div + num/denom, R-divider
and the inversion flag. -/
structure si5351OutputConfig where
  allowIntegerMode : Bool
  inverted : Nat
  div : Int
  num : Int
  denom : Int
  rdiv : Nat
deriving DecidableEq

/-- Embedding of si5351_write(reg, data): the single register write issued over
the bus, recorded as an (address, byte) pair.  Both C parameters are uint8, so
arguments are reduced mod 256 at the call boundary; the I2C transport itself
(and its success flag) is out of scope. -/
def si5351_write (reg data : Nat) : List (Nat × Nat) :=
  [(reg % 256, data % 256)]

/-- Embedding of si5351_writeBulk: the eight register writes of a parameter
block.  The C parameters P1, P2, P3 are int32_t; every call site reaching this
function in the claims passes values in [0, 2^20), where int32 shift/mask
arithmetic agrees with Nat arithmetic, so the parameters are taken as Nat. -/
def si5351_writeBulk (baseaddr P1 P2 P3 divBy4 rdiv : Nat) : List (Nat × Nat) :=
  si5351_write baseaddr ((P3 >>> 8) &&& 0xFF) ++
  si5351_write (baseaddr + 1) (P3 &&& 0xFF) ++
  si5351_write (baseaddr + 2)
    (((P1 >>> 16) &&& 0x3) ||| ((divBy4 &&& 0x3) <<< 2) ||| ((rdiv &&& 0x7) <<< 4)) ++
  si5351_write (baseaddr + 3) ((P1 >>> 8) &&& 0xFF) ++
  si5351_write (baseaddr + 4) (P1 &&& 0xFF) ++
  si5351_write (baseaddr + 5) (((P3 >>> 12) &&& 0xF0) ||| ((P2 >>> 16) &&& 0xF)) ++
  si5351_write (baseaddr + 6) ((P2 >>> 8) &&& 0xFF) ++
  si5351_write (baseaddr + 7) (P2 &&& 0xFF)

/-- Embedding of si5351_SetupPLL: the list of register writes it issues.  The
Int.toNat conversions at the si5351_writeBulk call mirror the remark on that
function: all values arising from the planners are nonnegative. -/
def si5351_SetupPLL (pll : si5351PLL) (conf : si5351PLLConfig) : List (Nat × Nat) :=
  let mult := conf.mult
  let num := conf.num
  let denom := conf.denom
  let P1 : Int := 128 * mult + Int.tdiv (128 * num) denom - 512
  let P2 : Int := Int.tmod (128 * num) denom
  let P3 : Int := denom
  let intCtlAddr : Nat :=
    if pll = si5351PLL.A then SI5351_REGISTER_22_CLK6_CONTROL
    else SI5351_REGISTER_23_CLK7_CONTROL
  let intModeWrites : List (Nat × Nat) :=
    if conf.allowIntegerMode = true ∧ num = 0 ∧ Int.tmod mult 2 = 0 then
      si5351_write intCtlAddr ((1 <<< 7) ||| (1 <<< 6))
    else []
  let baseaddr : Nat := if pll = si5351PLL.A then 26 else 34
  intModeWrites ++
    si5351_writeBulk baseaddr P1.toNat P2.toNat P3.toNat 0 SI5351_R_DIV_1 ++
    si5351_write SI5351_REGISTER_177_PLL_RESET ((1 <<< 7) ||| (1 <<< 5))

/-- Embedding of si5351_SetupOutput: its int return code together with the list
of register writes it issues (empty when it returns early with an error). -/
def si5351_SetupOutput (output : Nat) (pllSource : si5351PLL) (driveStrength : Nat)
    (conf : si5351OutputConfig) (phaseOffset : Nat) : Int × List (Nat × Nat) :=
  let div := conf.div
  let num := conf.num
  let denom := conf.denom
  let inverted := conf.inverted &&& 0x01
  if 2 < output then (1, [])
  else if conf.allowIntegerMode = false ∧ (div < 8 ∨ (div = 8 ∧ num = 0)) then (2, [])
  else
    let P1 : Int := if div = 4 then 0 else 128 * div + Int.tdiv (128 * num) denom - 512
    let P2 : Int := if div = 4 then 0 else Int.tmod (128 * num) denom
    let P3 : Int := if div = 4 then 1 else denom
    let divBy4 : Nat := if div = 4 then 0x3 else 0
    let baseaddr : Nat :=
      if output = 0 then SI5351_REGISTER_42_MULTISYNTH0_PARAMETERS_1
      else if output = 1 then SI5351_REGISTER_50_MULTISYNTH1_PARAMETERS_1
      else SI5351_REGISTER_58_MULTISYNTH2_PARAMETERS_1
    let phaseOffsetRegister : Nat :=
      if output = 0 then SI5351_REGISTER_165_CLK0_INITIAL_PHASE_OFFSET
      else if output = 1 then SI5351_REGISTER_166_CLK1_INITIAL_PHASE_OFFSET
      else SI5351_REGISTER_167_CLK2_INITIAL_PHASE_OFFSET
    let clkControlRegister : Nat :=
      if output = 0 then SI5351_REGISTER_16_CLK0_CONTROL
      else if output = 1 then SI5351_REGISTER_17_CLK1_CONTROL
      else SI5351_REGISTER_18_CLK2_CONTROL
    let clkControl0 : Nat := (0x0C ||| driveStrength) ||| (inverted <<< 4)
    let clkControl1 : Nat :=
      if pllSource = si5351PLL.B then clkControl0 ||| (1 <<< 5) else clkControl0
    let clkControl : Nat :=
      if conf.allowIntegerMode = true ∧ (num = 0 ∨ div = 4) then clkControl1 ||| (1 <<< 6)
      else clkControl1
    (0, si5351_write clkControlRegister clkControl ++
        si5351_writeBulk baseaddr P1.toNat P2.toNat P3.toNat divBy4 conf.rdiv ++
        si5351_write phaseOffsetRegister (phaseOffset &&& 0x7F))

/-- Embedding of si5351_Calc.  The process-wide si5351Correction global is
threaded as the explicit first argument; the si5351PLLConfig_t and
si5351OutputConfig_t structs written through pointers are threaded as the
pll0/out0 arguments, with the fields the C code assigns updated functionally
(the C code leaves pll0.allowIntegerMode and out0.inverted untouched). -/
def si5351_Calc (correction Fclk : Int) (pll0 : si5351PLLConfig)
    (out0 : si5351OutputConfig) : si5351PLLConfig × si5351OutputConfig :=
  let F0 : Int := if Fclk < 8000 then 8000 else if 160000000 < Fclk then 160000000 else Fclk
  let F1 : Int := if F0 < 1000000 then F0 * 64 else F0
  let rdiv : Nat := if F0 < 1000000 then SI5351_R_DIV_64 else SI5351_R_DIV_1
  let F : Int := F1 - Int.tdiv (Int.tdiv F1 1000000 * correction) 100
  let Fxtal : Int := 25000000
  if F < 81000000 then
    let Fpll : Int := 900000000
    let x : Int := Int.tdiv Fpll F
    let t : Int := (F >>> (20 : Nat)) + 1
    let y : Int := Int.tdiv (Int.tmod Fpll F) t
    let z : Int := Int.tdiv F t
    ({ pll0 with mult := 36, num := 0, denom := 1 },
     { out0 with allowIntegerMode := true, rdiv := rdiv, div := x, num := y, denom := z })
  else
    let x : Int := if 150000000 ≤ F then 4 else if 100000000 ≤ F then 6 else 8
    let numerator : Int := x * F
    let a : Int := Int.tdiv numerator Fxtal
    let t : Int := (Fxtal >>> (20 : Nat)) + 1
    let b : Int := Int.tdiv (Int.tmod numerator Fxtal) t
    let c : Int := Int.tdiv Fxtal t
    ({ pll0 with mult := a, num := b, denom := c },
     { out0 with allowIntegerMode := true, rdiv := rdiv, div := x, num := 0, denom := 1 })

/-- Embedding of si5351_CalcIQ, with the same threading conventions as
si5351_Calc (the C code assigns every field except out0.inverted). -/
def si5351_CalcIQ (correction Fclk : Int) (pll0 : si5351PLLConfig)
    (out0 : si5351OutputConfig) : si5351PLLConfig × si5351OutputConfig :=
  let Fxtal : Int := 25000000
  let F0 : Int := if Fclk < 1400000 then 1400000 else if 100000000 < Fclk then 100000000 else Fclk
  let F : Int := F0 - Int.tdiv (Int.tdiv F0 1000000 * correction) 100
  let div : Int :=
    if F < 4900000 then 127
    else if F < 8000000 then Int.tdiv 625000000 F
    else Int.tdiv 900000000 F
  let Fpll : Int := F * div
  ({ pll0 with mult := Int.tdiv Fpll Fxtal, num := Int.tdiv (Int.tmod Fpll Fxtal) 24,
               denom := Int.tdiv Fxtal 24 },
   { out0 with allowIntegerMode := false, rdiv := SI5351_R_DIV_1, div := div,
               num := 0, denom := 1 })

/-- Exact reconstructed output frequency of a planner result, as a rational:
Fxtal times (mult + num/denom) divided by ((div + num/denom) times 2^rdiv),
with the fixed Fxtal = 25 MHz of the planners. -/
def reconFreq (pll : si5351PLLConfig) (out : si5351OutputConfig) : ℚ :=
  25000000 * ((pll.mult : ℚ) + (pll.num : ℚ) / (pll.denom : ℚ)) /
    (((out.div : ℚ) + (out.num : ℚ) / (out.denom : ℚ)) * 2 ^ out.rdiv)

/-- The correction step shared verbatim by both planners:
Fclk - ((Fclk/1000000)*correction)/100 with C (truncating) integer division. -/
def applyCorrection (correction Fclk : Int) : Int :=
  Fclk - Int.tdiv (Int.tdiv Fclk 1000000 * correction) 100

/-- Regime-split stage of si5351_Calc: everything after the correction has been
applied, taking the already-scaled, corrected frequency and the already-chosen
R-divider exponent.  Used to state where in si5351_Calc's pipeline the
correction is applied. -/
def si5351_CalcPost (F : Int) (rdiv : Nat) (pll0 : si5351PLLConfig)
    (out0 : si5351OutputConfig) : si5351PLLConfig × si5351OutputConfig :=
  let Fxtal : Int := 25000000
  if F < 81000000 then
    let Fpll : Int := 900000000
    let x : Int := Int.tdiv Fpll F
    let t : Int := (F >>> (20 : Nat)) + 1
    let y : Int := Int.tdiv (Int.tmod Fpll F) t
    let z : Int := Int.tdiv F t
    ({ pll0 with mult := 36, num := 0, denom := 1 },
     { out0 with allowIntegerMode := true, rdiv := rdiv, div := x, num := y, denom := z })
  else
    let x : Int := if 150000000 ≤ F then 4 else if 100000000 ≤ F then 6 else 8
    let numerator : Int := x * F
    let a : Int := Int.tdiv numerator Fxtal
    let t : Int := (Fxtal >>> (20 : Nat)) + 1
    let b : Int := Int.tdiv (Int.tmod numerator Fxtal) t
    let c : Int := Int.tdiv Fxtal t
    ({ pll0 with mult := a, num := b, denom := c },
     { out0 with allowIntegerMode := true, rdiv := rdiv, div := x, num := 0, denom := 1 })

/-- Divider-selection-and-PLL stage of si5351_CalcIQ: everything after the
correction has been applied. -/
def si5351_CalcIQPost (F : Int) (pll0 : si5351PLLConfig)
    (out0 : si5351OutputConfig) : si5351PLLConfig × si5351OutputConfig :=
  let Fxtal : Int := 25000000
  let div : Int :=
    if F < 4900000 then 127
    else if F < 8000000 then Int.tdiv 625000000 F
    else Int.tdiv 900000000 F
  let Fpll : Int := F * div
  ({ pll0 with mult := Int.tdiv Fpll Fxtal, num := Int.tdiv (Int.tmod Fpll Fxtal) 24,
               denom := Int.tdiv Fxtal 24 },
   { out0 with allowIntegerMode := false, rdiv := SI5351_R_DIV_1, div := div,
               num := 0, denom := 1 })

/-- Fraction bounds the spec's data model demands of a planner-produced
num/denom pair (with num ≤ denom in place of the spec's strict inequality). -/
def fractionOK (numv denomv : Int) : Prop :=
  0 ≤ numv ∧ numv ≤ 2 ^ 20 - 1 ∧ 1 ≤ denomv ∧ denomv ≤ 2 ^ 20 ∧ numv ≤ denomv

/-- The packed fields P1/P2/P3 that si5351_SetupPLL and si5351_SetupOutput
derive from an integer part and a num/denom fraction fit their fixed widths
(P1: 18 bits, P2: 20 bits, P3: 20 bits). -/
def packedFieldsFit (intPart numv denomv : Int) : Prop :=
  0 ≤ 128 * intPart + Int.tdiv (128 * numv) denomv - 512 ∧
  128 * intPart + Int.tdiv (128 * numv) denomv - 512 < 2 ^ 18 ∧
  0 ≤ Int.tmod (128 * numv) denomv ∧ Int.tmod (128 * numv) denomv < 2 ^ 20 ∧
  0 < denomv ∧ denomv < 2 ^ 20

/-- Decidability of fractionOK, for evaluating it at concrete inputs. -/
instance (numv denomv : Int) : Decidable (fractionOK numv denomv) := by
  unfold fractionOK; infer_instance

/-- Decidability of packedFieldsFit, for evaluating it at concrete inputs. -/
instance (intPart numv denomv : Int) : Decidable (packedFieldsFit intPart numv denomv) := by
  unfold packedFieldsFit; infer_instance

/-- Sample PLL configuration used to instantiate theorems at concrete inputs
(the planners overwrite every field a claim looks at). -/
def examplePLLConfig : si5351PLLConfig := ⟨0, 0, 1, false⟩

/-- Sample output configuration used to instantiate theorems at concrete
inputs. -/
def exampleOutputConfig : si5351OutputConfig := ⟨false, 0, 0, 0, 1, 0⟩

/-- si5351_Calc factored through applyCorrection: the input is clamped, then
scaled by 64 with R-divider exponent 6 exactly when the clamped input is below
1 MHz, and only then is the correction applied to the scaled value. -/
lemma si5351_Calc_factored (correction Fclk : Int) (pll0 : si5351PLLConfig)
    (out0 : si5351OutputConfig) :
    si5351_Calc correction Fclk pll0 out0 =
      (fun F0 =>
        if F0 < 1000000 then
          si5351_CalcPost (applyCorrection correction (F0 * 64)) SI5351_R_DIV_64 pll0 out0
        else
          si5351_CalcPost (applyCorrection correction F0) SI5351_R_DIV_1 pll0 out0)
      (if Fclk < 8000 then 8000 else if 160000000 < Fclk then 160000000 else Fclk) := by
  by_cases h : (if Fclk < 8000 then (8000 : Int)
      else if 160000000 < Fclk then 160000000 else Fclk) < 1000000 <;>
    simp only [si5351_Calc, si5351_CalcPost, applyCorrection, h, if_true, if_false]

/-- si5351_CalcIQ factored through applyCorrection: the input is clamped and
the correction is then applied to the clamped value. -/
lemma si5351_CalcIQ_factored (correction Fclk : Int) (pll0 : si5351PLLConfig)
    (out0 : si5351OutputConfig) :
    si5351_CalcIQ correction Fclk pll0 out0 =
      si5351_CalcIQPost
        (applyCorrection correction
          (if Fclk < 1400000 then 1400000 else if 100000000 < Fclk then 100000000 else Fclk))
        pll0 out0 := by
  simp only [si5351_CalcIQ, si5351_CalcIQPost, applyCorrection]

/-- C8: in both planners the correction is applied to the (possibly 64-scaled)
target as Fclk - (Fclk / 1000000) * correction / 100 with truncating integer
division at each step; in si5351_Calc this happens after the R-divider exponent
has been determined (it is applied to the already 64-scaled value); and
correction 970 applied to 10000097 Hz yields exactly 10000000 Hz. -/
theorem c8_correction_formula :
    (∀ (correction Fclk : Int) (pll0 : si5351PLLConfig) (out0 : si5351OutputConfig),
      si5351_Calc correction Fclk pll0 out0 =
        (fun F0 =>
          if F0 < 1000000 then
            si5351_CalcPost (applyCorrection correction (F0 * 64)) SI5351_R_DIV_64 pll0 out0
          else
            si5351_CalcPost (applyCorrection correction F0) SI5351_R_DIV_1 pll0 out0)
        (if Fclk < 8000 then 8000 else if 160000000 < Fclk then 160000000 else Fclk)) ∧
    (∀ (correction Fclk : Int) (pll0 : si5351PLLConfig) (out0 : si5351OutputConfig),
      si5351_CalcIQ correction Fclk pll0 out0 =
        si5351_CalcIQPost
          (applyCorrection correction
            (if Fclk < 1400000 then 1400000
             else if 100000000 < Fclk then 100000000 else Fclk))
          pll0 out0) ∧
    applyCorrection 970 10000097 = 10000000 :=
  ⟨si5351_Calc_factored, si5351_CalcIQ_factored, by decide⟩

/-- C7: si5351_CalcIQ always disables integer mode, forces the R-divider
exponent to 0, produces the output fraction 0/1, and selects the output
divider from the clamped, corrected Fclk by the 4.9 MHz / 8 MHz thresholds. -/
theorem c7_calciq_structure (correction Fclk : Int) (pll0 : si5351PLLConfig)
    (out0 : si5351OutputConfig) :
    (si5351_CalcIQ correction Fclk pll0 out0).2.allowIntegerMode = false ∧
    (si5351_CalcIQ correction Fclk pll0 out0).2.rdiv = 0 ∧
    (si5351_CalcIQ correction Fclk pll0 out0).2.num = 0 ∧
    (si5351_CalcIQ correction Fclk pll0 out0).2.denom = 1 ∧
    (si5351_CalcIQ correction Fclk pll0 out0).2.div =
      (fun Fc =>
        if Fc < 4900000 then 127
        else if Fc < 8000000 then Int.tdiv 625000000 Fc
        else Int.tdiv 900000000 Fc)
      (applyCorrection correction
        (if Fclk < 1400000 then 1400000
         else if 100000000 < Fclk then 100000000 else Fclk)) :=
  ⟨rfl, rfl, rfl, rfl, rfl⟩

/-- Return code of si5351_SetupOutput as a standalone conditional. -/
lemma setupOutput_code (output : Nat) (pllSource : si5351PLL) (driveStrength : Nat)
    (conf : si5351OutputConfig) (phaseOffset : Nat) :
    (si5351_SetupOutput output pllSource driveStrength conf phaseOffset).1 =
      if 2 < output then 1
      else if conf.allowIntegerMode = false ∧
          (conf.div < 8 ∨ (conf.div = 8 ∧ conf.num = 0)) then 2
      else 0 := by
  simp only [si5351_SetupOutput]
  by_cases h1 : 2 < output
  · rw [if_pos h1, if_pos h1]
  · rw [if_neg h1, if_neg h1]
    by_cases h2 : conf.allowIntegerMode = false ∧
        (conf.div < 8 ∨ (conf.div = 8 ∧ conf.num = 0))
    · rw [if_pos h2, if_pos h2]
    · rw [if_neg h2, if_neg h2]

/-- C10: whenever si5351_SetupOutput returns a nonzero error code, it has
issued no register write at all. -/
theorem c10_no_writes_on_error (output : Nat) (pllSource : si5351PLL)
    (driveStrength : Nat) (conf : si5351OutputConfig) (phaseOffset : Nat)
    (h : (si5351_SetupOutput output pllSource driveStrength conf phaseOffset).1 ≠ 0) :
    (si5351_SetupOutput output pllSource driveStrength conf phaseOffset).2 = [] := by
  by_cases h1 : 2 < output
  · simp only [si5351_SetupOutput]; rw [if_pos h1]
  · by_cases h2 : conf.allowIntegerMode = false ∧
        (conf.div < 8 ∨ (conf.div = 8 ∧ conf.num = 0))
    · simp only [si5351_SetupOutput]; rw [if_neg h1, if_pos h2]
    · have hc := setupOutput_code output pllSource driveStrength conf phaseOffset
      rw [if_neg h1, if_neg h2] at hc
      exact absurd hc h

/-- Witness for c10_no_writes_on_error at the concrete erroring input
output = 3. -/
theorem c10_no_writes_on_error_witness :
    (si5351_SetupOutput 3 si5351PLL.A 0 exampleOutputConfig 0).2 = [] :=
  c10_no_writes_on_error 3 si5351PLL.A 0 exampleOutputConfig 0 (by decide)

/-- C3 counterexample: at output 0 with allowIntegerMode = false, div = 4,
num = 0 the code returns error 2 (InvalidDividerMode), although the claim's
error condition excludes the div = 4, num = 0 special case (so the claim
predicts success there): the claimed equivalence is false at this input. -/
theorem c3_counterexample :
    ¬ (((si5351_SetupOutput 0 si5351PLL.A 0 ⟨false, 0, 4, 0, 1, 0⟩ 0).1 = 2) ↔
       ((false = false) ∧ (4 : Int) < 8 ∧ ¬ ((4 : Int) = 4 ∧ (0 : Int) = 0))) := by
  decide

/-- C3 amended: si5351_SetupOutput returns 1 (InvalidChannel) exactly when
channel > 2; it returns 2 (InvalidDividerMode) exactly when channel ≤ 2,
integer mode is disallowed and div < 8 or (div = 8 and num = 0) — the div = 4
special case is not excluded, and div = 8 with num = 0 is also rejected; in
all other cases it returns 0. -/
theorem c3_error_codes (output : Nat) (pllSource : si5351PLL) (driveStrength : Nat)
    (conf : si5351OutputConfig) (phaseOffset : Nat) :
    (((si5351_SetupOutput output pllSource driveStrength conf phaseOffset).1 = 1) ↔
      2 < output) ∧
    (((si5351_SetupOutput output pllSource driveStrength conf phaseOffset).1 = 2) ↔
      (output ≤ 2 ∧ conf.allowIntegerMode = false ∧
        (conf.div < 8 ∨ (conf.div = 8 ∧ conf.num = 0)))) ∧
    (((si5351_SetupOutput output pllSource driveStrength conf phaseOffset).1 = 0) ↔
      (output ≤ 2 ∧ ¬ (conf.allowIntegerMode = false ∧
        (conf.div < 8 ∨ (conf.div = 8 ∧ conf.num = 0))))) := by
  rw [setupOutput_code]
  split_ifs with h1 h2
  · refine ⟨by simp [h1], by simp; omega, by simp; omega⟩
  · refine ⟨by simp; omega, by simp [h2]; omega, by simp [h2]⟩
  · refine ⟨by simp; omega, by simp [h2], by simp [h2]; omega⟩

/-- C5: with divider 4 (on a call that passes validation, i.e. channel ≤ 2 and
integer mode allowed), si5351_SetupOutput encodes the parameter block with
P1 = 0, P2 = 0, P3 = 1 and the divide-by-4 flag 0b11, regardless of the
requested num/denom fraction; and si5351_SetupPLL always passes 0 for the
divide-by-4 flag of its bulk write. -/
theorem c5_divby4_special :
    (∀ (output : Nat) (pllSource : si5351PLL) (driveStrength : Nat)
        (conf : si5351OutputConfig) (phaseOffset : Nat),
        output ≤ 2 → conf.allowIntegerMode = true → conf.div = 4 →
        ∃ ctrl,
          (si5351_SetupOutput output pllSource driveStrength conf phaseOffset).2 =
            si5351_write
              (if output = 0 then SI5351_REGISTER_16_CLK0_CONTROL
               else if output = 1 then SI5351_REGISTER_17_CLK1_CONTROL
               else SI5351_REGISTER_18_CLK2_CONTROL) ctrl ++
            si5351_writeBulk
              (if output = 0 then SI5351_REGISTER_42_MULTISYNTH0_PARAMETERS_1
               else if output = 1 then SI5351_REGISTER_50_MULTISYNTH1_PARAMETERS_1
               else SI5351_REGISTER_58_MULTISYNTH2_PARAMETERS_1)
              0 0 1 3 conf.rdiv ++
            si5351_write
              (if output = 0 then SI5351_REGISTER_165_CLK0_INITIAL_PHASE_OFFSET
               else if output = 1 then SI5351_REGISTER_166_CLK1_INITIAL_PHASE_OFFSET
               else SI5351_REGISTER_167_CLK2_INITIAL_PHASE_OFFSET)
              (phaseOffset &&& 0x7F)) ∧
    (∀ (pll : si5351PLL) (conf : si5351PLLConfig),
        ∃ pre P1 P2 P3,
          si5351_SetupPLL pll conf =
            pre ++
            si5351_writeBulk (if pll = si5351PLL.A then 26 else 34) P1 P2 P3 0
              SI5351_R_DIV_1 ++
            si5351_write SI5351_REGISTER_177_PLL_RESET ((1 <<< 7) ||| (1 <<< 5))) := by
  constructor
  · intro output ps ds conf po hout hallow hdiv
    have h1 : ¬ 2 < output := by omega
    have h2 : ¬ (conf.allowIntegerMode = false ∧
        (conf.div < 8 ∨ (conf.div = 8 ∧ conf.num = 0))) := by
      rw [hallow]; simp
    refine ⟨(if ps = si5351PLL.B
        then ((0x0C ||| ds) ||| ((conf.inverted &&& 0x01) <<< 4)) ||| (1 <<< 5)
        else (0x0C ||| ds) ||| ((conf.inverted &&& 0x01) <<< 4)) ||| (1 <<< 6), ?_⟩
    simp only [si5351_SetupOutput]
    rw [if_neg h1, if_neg h2]
    simp only [hdiv, hallow]
    norm_num
  · intro pll conf
    exact ⟨_, _, _, _, rfl⟩

/-- Witness for c5_divby4_special at a concrete call with a nontrivial
requested fraction 5/7: the block is still encoded as 0, 0, 1 with flag 3. -/
theorem c5_divby4_special_witness :
    ∃ ctrl,
      (si5351_SetupOutput 0 si5351PLL.A 0 ⟨true, 0, 4, 5, 7, 2⟩ 9).2 =
        si5351_write SI5351_REGISTER_16_CLK0_CONTROL ctrl ++
        si5351_writeBulk SI5351_REGISTER_42_MULTISYNTH0_PARAMETERS_1 0 0 1 3 2 ++
        si5351_write SI5351_REGISTER_165_CLK0_INITIAL_PHASE_OFFSET (9 &&& 0x7F) :=
  c5_divby4_special.1 0 si5351PLL.A 0 ⟨true, 0, 4, 5, 7, 2⟩ 9 (by norm_num) rfl rfl

set_option maxRecDepth 100000 in
/-- Bit arithmetic of register byte 2: OR of the disjoint 2-, 2- and 3-bit
fields equals their weighted sum. -/
lemma or_bits_byte2 : ∀ u, u < 4 → ∀ d, d < 4 → ∀ r, r < 8 →
    (u &&& 3) ||| ((d &&& 3) <<< 2) ||| ((r &&& 7) <<< 4) = u + d * 4 + r * 16 := by
  decide

set_option maxRecDepth 1000000 in
/-- Bit arithmetic of register byte 5: OR of the two disjoint nibbles equals
their weighted sum. -/
lemma or_bits_byte5 : ∀ v, v < 256 → ∀ w, w < 16 →
    (v &&& 240) ||| (w &&& 15) = v / 16 % 16 * 16 + w % 16 := by
  decide

/-- Mask with 255 is reduction mod 256. -/
lemma and_255_eq_mod (x : Nat) : x &&& 255 = x % 256 := by
  have h := Nat.and_pow_two_sub_one_eq_mod x 8
  norm_num at h
  exact h

/-- C2: for P1 in 18 bits, P2 and P3 in 20 bits, divBy4 in 2 bits and rdiv in
3 bits, si5351_writeBulk issues exactly eight writes to the consecutive
addresses baseaddr..baseaddr+7 (as uint8), carrying in order: P3 bits 15:8;
P3 bits 7:0; P1 bits 17:16 + divBy4·4 + rdiv·16; P1 bits 15:8; P1 bits 7:0;
(P3 bits 19:16)·16 + P2 bits 19:16; P2 bits 15:8; P2 bits 7:0. -/
theorem c2_writeBulk_layout (baseaddr P1 P2 P3 divBy4 rdiv : Nat)
    (h1 : P1 < 2 ^ 18) (h2 : P2 < 2 ^ 20) (h3 : P3 < 2 ^ 20)
    (h4 : divBy4 < 2 ^ 2) (h5 : rdiv < 2 ^ 3) :
    si5351_writeBulk baseaddr P1 P2 P3 divBy4 rdiv =
      [(baseaddr % 256, P3 / 2 ^ 8 % 2 ^ 8),
       ((baseaddr + 1) % 256, P3 % 2 ^ 8),
       ((baseaddr + 2) % 256, P1 / 2 ^ 16 + divBy4 * 2 ^ 2 + rdiv * 2 ^ 4),
       ((baseaddr + 3) % 256, P1 / 2 ^ 8 % 2 ^ 8),
       ((baseaddr + 4) % 256, P1 % 2 ^ 8),
       ((baseaddr + 5) % 256, P3 / 2 ^ 16 * 2 ^ 4 + P2 / 2 ^ 16),
       ((baseaddr + 6) % 256, P2 / 2 ^ 8 % 2 ^ 8),
       ((baseaddr + 7) % 256, P2 % 2 ^ 8)] := by
  have hshr : ∀ (x k : Nat), x >>> k = x / 2 ^ k := Nat.shiftRight_eq_div_pow
  have e0 : ((P3 >>> 8) &&& 255) % 256 = P3 / 2 ^ 8 % 2 ^ 8 := by
    rw [and_255_eq_mod, hshr]; omega
  have e1 : (P3 &&& 255) % 256 = P3 % 2 ^ 8 := by
    rw [and_255_eq_mod]; omega
  have e2 : ((((P1 >>> 16) &&& 3) ||| ((divBy4 &&& 3) <<< 2) ||| ((rdiv &&& 7) <<< 4))) % 256 =
      P1 / 2 ^ 16 + divBy4 * 2 ^ 2 + rdiv * 2 ^ 4 := by
    have hu : P1 >>> 16 < 4 := by rw [hshr]; omega
    rw [or_bits_byte2 (P1 >>> 16) hu divBy4 (by omega) rdiv (by omega), hshr]
    omega
  have e3 : ((P1 >>> 8) &&& 255) % 256 = P1 / 2 ^ 8 % 2 ^ 8 := by
    rw [and_255_eq_mod, hshr]; omega
  have e4 : (P1 &&& 255) % 256 = P1 % 2 ^ 8 := by
    rw [and_255_eq_mod]; omega
  have e5 : ((((P3 >>> 12) &&& 240) ||| ((P2 >>> 16) &&& 15))) % 256 =
      P3 / 2 ^ 16 * 2 ^ 4 + P2 / 2 ^ 16 := by
    have hv : P3 >>> 12 < 256 := by rw [hshr]; omega
    have hw : P2 >>> 16 < 16 := by rw [hshr]; omega
    rw [or_bits_byte5 (P3 >>> 12) hv (P2 >>> 16) hw, hshr, hshr]
    omega
  have e6 : ((P2 >>> 8) &&& 255) % 256 = P2 / 2 ^ 8 % 2 ^ 8 := by
    rw [and_255_eq_mod, hshr]; omega
  have e7 : (P2 &&& 255) % 256 = P2 % 2 ^ 8 := by
    rw [and_255_eq_mod]; omega
  simp only [si5351_writeBulk, si5351_write, List.cons_append, List.nil_append]
  rw [e0, e1, e2, e3, e4, e5, e6, e7]

/-- Witness for c2_writeBulk_layout at concrete in-range inputs. -/
theorem c2_writeBulk_layout_witness :
    si5351_writeBulk 42 200000 1000000 733496 3 6 =
      [(42 % 256, 733496 / 2 ^ 8 % 2 ^ 8),
       ((42 + 1) % 256, 733496 % 2 ^ 8),
       ((42 + 2) % 256, 200000 / 2 ^ 16 + 3 * 2 ^ 2 + 6 * 2 ^ 4),
       ((42 + 3) % 256, 200000 / 2 ^ 8 % 2 ^ 8),
       ((42 + 4) % 256, 200000 % 2 ^ 8),
       ((42 + 5) % 256, 733496 / 2 ^ 16 * 2 ^ 4 + 1000000 / 2 ^ 16),
       ((42 + 6) % 256, 1000000 / 2 ^ 8 % 2 ^ 8),
       ((42 + 7) % 256, 1000000 % 2 ^ 8)] :=
  c2_writeBulk_layout 42 200000 1000000 733496 3 6 (by norm_num) (by norm_num)
    (by norm_num) (by norm_num) (by norm_num)

/-- Evaluation of si5351_Calc with correction 0 in the middle regime
1 MHz ≤ Fclk < 81 MHz: no clamping, no scaling, fixed 900 MHz PLL. -/
lemma calc_eval_mid (F : Int) (pll0 : si5351PLLConfig) (out0 : si5351OutputConfig)
    (h1 : 1000000 ≤ F) (h2 : F < 81000000) :
    si5351_Calc 0 F pll0 out0 =
      ({ pll0 with mult := 36, num := 0, denom := 1 },
       { out0 with allowIntegerMode := true, rdiv := 0,
                   div := 900000000 / F,
                   num := 900000000 % F / (F / 1048576 + 1),
                   denom := F / (F / 1048576 + 1) }) := by
  have h8 : ¬ (F < 8000) := by omega
  have h16 : ¬ ((160000000 : ℤ) < F) := by omega
  have h1m : ¬ (F < 1000000) := by omega
  have hs : F >>> (20 : Nat) = F / 1048576 := by
    rw [Int.shiftRight_eq_div_pow]; norm_num
  have ht0 : (0 : ℤ) ≤ F / 1048576 + 1 := by
    have := Int.ediv_nonneg (show (0:ℤ) ≤ F by omega) (show (0:ℤ) ≤ 1048576 by norm_num)
    omega
  have hr0 : (0 : ℤ) ≤ 900000000 % F := Int.emod_nonneg _ (by omega)
  simp only [si5351_Calc]
  rw [if_neg h8, if_neg h16, if_neg h1m]
  rw [mul_zero, Int.zero_tdiv, sub_zero]
  rw [if_pos h2]
  rw [hs]
  rw [Int.tdiv_eq_ediv (by norm_num) (by omega : (0:ℤ) ≤ F),
      Int.tmod_eq_emod (by norm_num) (by omega : (0:ℤ) ≤ F)]
  rw [Int.tdiv_eq_ediv hr0 ht0, Int.tdiv_eq_ediv (by omega : (0:ℤ) ≤ F) ht0]
  rw [if_neg h1m]
  rfl

/-- Evaluation of si5351_Calc with correction 0 in the scaled low regime
8 kHz ≤ Fclk < 1 MHz: the target is multiplied by 64 and the R-divider
exponent is 6. -/
lemma calc_eval_low (F : Int) (pll0 : si5351PLLConfig) (out0 : si5351OutputConfig)
    (h1 : 8000 ≤ F) (h2 : F < 1000000) :
    si5351_Calc 0 F pll0 out0 =
      ({ pll0 with mult := 36, num := 0, denom := 1 },
       { out0 with allowIntegerMode := true, rdiv := 6,
                   div := 900000000 / (F * 64),
                   num := 900000000 % (F * 64) / (F * 64 / 1048576 + 1),
                   denom := F * 64 / (F * 64 / 1048576 + 1) }) := by
  have h8 : ¬ (F < 8000) := by omega
  have h16 : ¬ ((160000000 : ℤ) < F) := by omega
  have h1m : F < 1000000 := h2
  have h81 : F * 64 < 81000000 := by omega
  have hG0 : (0 : ℤ) ≤ F * 64 := by omega
  have hs : (F * 64) >>> (20 : Nat) = F * 64 / 1048576 := by
    rw [Int.shiftRight_eq_div_pow]; norm_num
  have ht0 : (0 : ℤ) ≤ F * 64 / 1048576 + 1 := by
    have := Int.ediv_nonneg hG0 (show (0:ℤ) ≤ 1048576 by norm_num)
    omega
  have hr0 : (0 : ℤ) ≤ 900000000 % (F * 64) := Int.emod_nonneg _ (by omega)
  simp only [si5351_Calc]
  rw [if_neg h8, if_neg h16, if_pos h1m]
  rw [mul_zero, Int.zero_tdiv, sub_zero]
  rw [if_pos h81]
  rw [hs]
  rw [Int.tdiv_eq_ediv (by norm_num) hG0, Int.tmod_eq_emod (by norm_num) hG0]
  rw [Int.tdiv_eq_ediv hr0 ht0, Int.tdiv_eq_ediv hG0 ht0]
  rw [if_pos h1m]
  rfl

/-- Evaluation of si5351_Calc with correction 0 below the 8 kHz clamp: the
result is that of the clamped-and-scaled target 512000. -/
lemma calc_eval_lowclamp (F : Int) (pll0 : si5351PLLConfig) (out0 : si5351OutputConfig)
    (h : F < 8000) :
    si5351_Calc 0 F pll0 out0 =
      ({ pll0 with mult := 36, num := 0, denom := 1 },
       { out0 with allowIntegerMode := true, rdiv := 6,
                   div := 1757, num := 416000, denom := 512000 }) := by
  simp only [si5351_Calc]
  rw [if_pos h]
  rfl

/-- Evaluation of si5351_Calc with correction 0 above the 160 MHz clamp: the
result is that of the clamped target 160 MHz. -/
lemma calc_eval_topclamp (F : Int) (pll0 : si5351PLLConfig) (out0 : si5351OutputConfig)
    (h : 160000000 < F) :
    si5351_Calc 0 F pll0 out0 =
      ({ pll0 with mult := 25, num := 625000, denom := 1041666 },
       { out0 with allowIntegerMode := true, rdiv := 0,
                   div := 4, num := 0, denom := 1 }) := by
  have h8 : ¬ (F < 8000) := by omega
  simp only [si5351_Calc]
  rw [if_neg h8, if_pos h]
  rfl

/-- Evaluation of si5351_Calc with correction 0 in the high regime
81 MHz ≤ Fclk ≤ 160 MHz: integer output divider from the thresholds, PLL
fraction reduced by t = 24. -/
lemma calc_eval_high (F : Int) (pll0 : si5351PLLConfig) (out0 : si5351OutputConfig)
    (h1 : 81000000 ≤ F) (h2 : F ≤ 160000000) :
    si5351_Calc 0 F pll0 out0 =
      ({ pll0 with
           mult := (if 150000000 ≤ F then (4:ℤ) else if 100000000 ≤ F then 6 else 8) * F / 25000000,
           num := (if 150000000 ≤ F then (4:ℤ) else if 100000000 ≤ F then 6 else 8) * F % 25000000 / 24,
           denom := 1041666 },
       { out0 with allowIntegerMode := true, rdiv := 0,
                   div := (if 150000000 ≤ F then (4:ℤ) else if 100000000 ≤ F then 6 else 8),
                   num := 0, denom := 1 }) := by
  have h8 : ¬ (F < 8000) := by omega
  have h16 : ¬ ((160000000 : ℤ) < F) := by omega
  have h1m : ¬ (F < 1000000) := by omega
  have h81 : ¬ (F < 81000000) := by omega
  have hx0 : (0 : ℤ) ≤ (if 150000000 ≤ F then (4:ℤ) else if 100000000 ≤ F then 6 else 8) := by
    split_ifs <;> norm_num
  have hN0 : (0 : ℤ) ≤ (if 150000000 ≤ F then (4:ℤ) else if 100000000 ≤ F then 6 else 8) * F :=
    mul_nonneg hx0 (by omega)
  have hr0 : (0 : ℤ) ≤ (if 150000000 ≤ F then (4:ℤ) else if 100000000 ≤ F then 6 else 8) * F % 25000000 :=
    Int.emod_nonneg _ (by norm_num)
  have ht : ((25000000 : ℤ) >>> (20 : Nat)) + 1 = 24 := by decide
  simp only [si5351_Calc]
  rw [if_neg h8, if_neg h16, if_neg h1m]
  rw [mul_zero, Int.zero_tdiv, sub_zero]
  rw [if_neg h81]
  rw [ht]
  rw [Int.tdiv_eq_ediv hN0 (by norm_num), Int.tmod_eq_emod hN0 (by norm_num)]
  rw [Int.tdiv_eq_ediv hr0 (by norm_num)]
  rw [if_neg h1m]
  rfl

/-- Evaluation of si5351_CalcIQ with correction 0 inside the clamp range. -/
lemma calciq_eval (F : Int) (pll0 : si5351PLLConfig) (out0 : si5351OutputConfig)
    (h1 : 1400000 ≤ F) (h2 : F ≤ 100000000) :
    si5351_CalcIQ 0 F pll0 out0 =
      ({ pll0 with
           mult := F * (if F < 4900000 then (127:ℤ) else if F < 8000000 then 625000000 / F else 900000000 / F) / 25000000,
           num := F * (if F < 4900000 then (127:ℤ) else if F < 8000000 then 625000000 / F else 900000000 / F) % 25000000 / 24,
           denom := 1041666 },
       { out0 with allowIntegerMode := false, rdiv := 0,
                   div := (if F < 4900000 then (127:ℤ) else if F < 8000000 then 625000000 / F else 900000000 / F),
                   num := 0, denom := 1 }) := by
  have hc1 : ¬ (F < 1400000) := by omega
  have hc2 : ¬ ((100000000 : ℤ) < F) := by omega
  have hF0 : (0 : ℤ) ≤ F := by omega
  have hdv0 : (0 : ℤ) ≤ (if F < 4900000 then (127:ℤ) else if F < 8000000 then 625000000 / F else 900000000 / F) := by
    split_ifs
    · norm_num
    · exact Int.ediv_nonneg (by norm_num) hF0
    · exact Int.ediv_nonneg (by norm_num) hF0
  have hN0 : (0 : ℤ) ≤ F * (if F < 4900000 then (127:ℤ) else if F < 8000000 then 625000000 / F else 900000000 / F) :=
    mul_nonneg hF0 hdv0
  have hr0 : (0 : ℤ) ≤ F * (if F < 4900000 then (127:ℤ) else if F < 8000000 then 625000000 / F else 900000000 / F) % 25000000 :=
    Int.emod_nonneg _ (by norm_num)
  simp only [si5351_CalcIQ]
  rw [if_neg hc1, if_neg hc2]
  rw [mul_zero, Int.zero_tdiv, sub_zero]
  rw [Int.tdiv_eq_ediv (by norm_num) hF0, Int.tdiv_eq_ediv (by norm_num) hF0]
  rw [Int.tdiv_eq_ediv hN0 (by norm_num), Int.tmod_eq_emod hN0 (by norm_num)]
  rw [Int.tdiv_eq_ediv hr0 (by norm_num)]
  rfl

/-- Evaluation of si5351_CalcIQ with correction 0 below the 1.4 MHz clamp. -/
lemma calciq_eval_lowclamp (F : Int) (pll0 : si5351PLLConfig) (out0 : si5351OutputConfig)
    (h : F < 1400000) :
    si5351_CalcIQ 0 F pll0 out0 =
      ({ pll0 with mult := 7, num := 116666, denom := 1041666 },
       { out0 with allowIntegerMode := false, rdiv := 0,
                   div := 127, num := 0, denom := 1 }) := by
  simp only [si5351_CalcIQ]
  rw [if_pos h]
  rfl

/-- Evaluation of si5351_CalcIQ with correction 0 above the 100 MHz clamp. -/
lemma calciq_eval_topclamp (F : Int) (pll0 : si5351PLLConfig) (out0 : si5351OutputConfig)
    (h : 100000000 < F) :
    si5351_CalcIQ 0 F pll0 out0 =
      ({ pll0 with mult := 36, num := 0, denom := 1041666 },
       { out0 with allowIntegerMode := false, rdiv := 0,
                   div := 9, num := 0, denom := 1 }) := by
  have hc1 : ¬ (F < 1400000) := by omega
  simp only [si5351_CalcIQ]
  rw [if_neg hc1, if_pos h]
  rfl

/-- Quotient bounds for the PLL multiplier in the high regime of
si5351_Calc. -/
lemma ediv_range_24_36 (N : ℤ) (hlo : 600000000 ≤ N) (hhi : N < 925000000) :
    24 ≤ N / 25000000 ∧ N / 25000000 ≤ 36 := by
  constructor
  · rw [Int.le_ediv_iff_mul_le (by norm_num)]; omega
  · have h : N / 25000000 < 37 := by
      rw [Int.ediv_lt_iff_lt_mul (by norm_num)]; omega
    omega

/-- Quotient bounds for the PLL multiplier in si5351_CalcIQ. -/
lemma ediv_range_7_36 (N : ℤ) (hlo : 175000000 ≤ N) (hhi : N < 925000000) :
    7 ≤ N / 25000000 ∧ N / 25000000 ≤ 36 := by
  constructor
  · rw [Int.le_ediv_iff_mul_le (by norm_num)]; omega
  · have h : N / 25000000 < 37 := by
      rw [Int.ediv_lt_iff_lt_mul (by norm_num)]; omega
    omega

/-- C4 counterexample: si5351_CalcIQ at the 1.4 MHz lower edge produces
multiplier 7, outside the claimed [24, 36] range (the PLL is deliberately run
below 600 MHz there). -/
theorem c4_counterexample :
    (si5351_CalcIQ 0 1400000 examplePLLConfig exampleOutputConfig).1.mult = 7 ∧
    ¬ (24 ≤ (si5351_CalcIQ 0 1400000 examplePLLConfig exampleOutputConfig).1.mult ∧
       (si5351_CalcIQ 0 1400000 examplePLLConfig exampleOutputConfig).1.mult ≤ 36) := by
  decide

/-- C4 amended: with correction 0, si5351_Calc always produces a PLL
multiplier in [24, 36]; si5351_CalcIQ always produces one in [7, 36] (the
fixed divider 127 used below 4.9 MHz lets the implied PLL frequency drop to
about 178 MHz, i.e. multiplier 7, by design). -/
theorem c4_mult_range (Fclk : Int) (pll0 : si5351PLLConfig) (out0 : si5351OutputConfig) :
    (24 ≤ (si5351_Calc 0 Fclk pll0 out0).1.mult ∧
     (si5351_Calc 0 Fclk pll0 out0).1.mult ≤ 36) ∧
    (7 ≤ (si5351_CalcIQ 0 Fclk pll0 out0).1.mult ∧
     (si5351_CalcIQ 0 Fclk pll0 out0).1.mult ≤ 36) := by
  constructor
  · rcases lt_or_le Fclk 8000 with h | h
    · rw [calc_eval_lowclamp Fclk pll0 out0 h]; norm_num
    · rcases lt_or_le Fclk 1000000 with h2 | h2
      · rw [calc_eval_low Fclk pll0 out0 h h2]; norm_num
      · rcases lt_or_le Fclk 81000000 with h3 | h3
        · rw [calc_eval_mid Fclk pll0 out0 h2 h3]; norm_num
        · rcases le_or_lt Fclk 160000000 with h4 | h4
          · rw [calc_eval_high Fclk pll0 out0 h3 h4]
            simp only
            split_ifs with hx1 hx2
            · exact ediv_range_24_36 _ (by omega) (by omega)
            · exact ediv_range_24_36 _ (by omega) (by omega)
            · exact ediv_range_24_36 _ (by omega) (by omega)
          · rw [calc_eval_topclamp Fclk pll0 out0 h4]; norm_num
  · rcases lt_or_le Fclk 1400000 with h | h
    · rw [calciq_eval_lowclamp Fclk pll0 out0 h]; norm_num
    · rcases le_or_lt Fclk 100000000 with h2 | h2
      · rw [calciq_eval Fclk pll0 out0 h h2]
        simp only
        split_ifs with hd1 hd2
        · exact ediv_range_7_36 _ (by omega) (by omega)
        · have e := Int.ediv_add_emod 625000000 Fclk
          have m1 : 0 ≤ 625000000 % Fclk := Int.emod_nonneg _ (by omega)
          have m2 : 625000000 % Fclk < Fclk := Int.emod_lt_of_pos _ (by omega)
          exact ediv_range_7_36 _ (by linarith) (by linarith)
        · have e := Int.ediv_add_emod 900000000 Fclk
          have m1 : 0 ≤ 900000000 % Fclk := Int.emod_nonneg _ (by omega)
          have m2 : 900000000 % Fclk < Fclk := Int.emod_lt_of_pos _ (by omega)
          exact ediv_range_7_36 _ (by linarith) (by linarith)
      · rw [calciq_eval_topclamp Fclk pll0 out0 h2]; norm_num

/-- C6: with correction 0 and 1 MHz ≤ Fclk < 81 MHz, si5351_Calc returns PLL
36 + 0/1 (900 MHz) and output divider 900000000/Fclk with fraction
(900000000 mod Fclk)/t over Fclk/t, t = (Fclk >> 20) + 1; in particular
Fclk = 10 MHz yields PLL {36,0,1}, output {90, 0, 1000000, rdiv 0}, and the
reconstructed frequency is exactly 10 MHz. -/
theorem c6_mid_regime (Fclk : Int) (pll0 : si5351PLLConfig) (out0 : si5351OutputConfig)
    (h1 : 1000000 ≤ Fclk) (h2 : Fclk < 81000000) :
    si5351_Calc 0 Fclk pll0 out0 =
      ({ pll0 with mult := 36, num := 0, denom := 1 },
       { out0 with allowIntegerMode := true, rdiv := 0,
                   div := 900000000 / Fclk,
                   num := 900000000 % Fclk / (Fclk / 1048576 + 1),
                   denom := Fclk / (Fclk / 1048576 + 1) }) ∧
    si5351_Calc 0 10000000 pll0 out0 =
      ({ pll0 with mult := 36, num := 0, denom := 1 },
       { out0 with allowIntegerMode := true, rdiv := 0,
                   div := 90, num := 0, denom := 1000000 }) ∧
    reconFreq (si5351_Calc 0 10000000 pll0 out0).1
        (si5351_Calc 0 10000000 pll0 out0).2 = 10000000 := by
  refine ⟨calc_eval_mid Fclk pll0 out0 h1 h2, ?_, ?_⟩
  · rw [calc_eval_mid 10000000 pll0 out0 (by norm_num) (by norm_num)]
    norm_num
  · rw [calc_eval_mid 10000000 pll0 out0 (by norm_num) (by norm_num)]
    simp only [reconFreq]
    norm_num

/-- Witness for c6_mid_regime: the general formula instantiated at 10 MHz. -/
theorem c6_mid_regime_witness :
    si5351_Calc 0 10000000 examplePLLConfig exampleOutputConfig =
      ({ examplePLLConfig with mult := 36, num := 0, denom := 1 },
       { exampleOutputConfig with
          allowIntegerMode := true, rdiv := 0,
          div := 900000000 / 10000000,
          num := 900000000 % 10000000 / (10000000 / 1048576 + 1),
          denom := 10000000 / (10000000 / 1048576 + 1) }) :=
  (c6_mid_regime 10000000 examplePLLConfig exampleOutputConfig (by norm_num)
    (by norm_num)).1

/-- Fraction and packed-field bounds for the 900 MHz regime of si5351_Calc,
as a function of the scaled, corrected target G. -/
lemma c9_mid_core (G : ℤ) (h1 : 512000 ≤ G) (h2 : G < 81000000) :
    fractionOK (900000000 % G / (G / 1048576 + 1)) (G / (G / 1048576 + 1)) ∧
    packedFieldsFit (900000000 / G) (900000000 % G / (G / 1048576 + 1))
      (G / (G / 1048576 + 1)) := by
  set t : ℤ := G / 1048576 + 1 with ht
  set r : ℤ := 900000000 % G with hr
  set q : ℤ := 900000000 / G with hq
  set y : ℤ := r / t with hy
  set z : ℤ := G / t with hz
  have ht1 : 1 ≤ t := by omega
  have ht78 : t ≤ 78 := by omega
  have hr0 : 0 ≤ r := Int.emod_nonneg _ (by omega)
  have hr1 : r < G := Int.emod_lt_of_pos _ (by omega)
  have hq11 : 11 ≤ q := by rw [hq, Int.le_ediv_iff_mul_le (by omega)]; omega
  have hq17 : q ≤ 1757 := by
    have : q < 1758 := by rw [hq, Int.ediv_lt_iff_lt_mul (by omega)]; omega
    omega
  have hy0 : 0 ≤ y := hy ▸ Int.ediv_nonneg hr0 (by omega)
  have hyz : y ≤ z := by rw [hy, hz]; exact Int.ediv_le_ediv (by omega) (by omega)
  have hz1 : 1 ≤ z := by rw [hz, Int.le_ediv_iff_mul_le (by omega)]; omega
  have hzlt : z < 1048576 := by rw [hz, Int.ediv_lt_iff_lt_mul (by omega)]; omega
  have h128 : (128 * y).tdiv z = 128 * y / z := Int.tdiv_eq_ediv (by omega) (by omega)
  have hP2 : (128 * y).tmod z = 128 * y % z := Int.tmod_eq_emod (by omega) (by omega)
  have hd0 : 0 ≤ 128 * y / z := Int.ediv_nonneg (by omega) (by omega)
  have hd128 : 128 * y / z ≤ 128 := by
    have : 128 * y / z < 129 := by rw [Int.ediv_lt_iff_lt_mul (by omega)]; omega
    omega
  have hm0 : 0 ≤ 128 * y % z := Int.emod_nonneg _ (by omega)
  have hm1 : 128 * y % z < z := Int.emod_lt_of_pos _ (by omega)
  constructor
  · simp only [fractionOK]
    norm_num
    omega
  · simp only [packedFieldsFit, h128, hP2]
    norm_num
    omega

/-- Fraction and packed-field bounds for a PLL fraction produced with the
fixed reduction factor 24 (denominator 1041666), given the multiplier
bounds. -/
lemma c9_b24_core (N : ℤ) (hN : 0 ≤ N) (hlo : 7 ≤ N / 25000000)
    (hhi : N / 25000000 ≤ 36) :
    fractionOK (N % 25000000 / 24) 1041666 ∧
    packedFieldsFit (N / 25000000) (N % 25000000 / 24) 1041666 := by
  have hr0 : 0 ≤ N % 25000000 := Int.emod_nonneg _ (by norm_num)
  have hr1 : N % 25000000 < 25000000 := Int.emod_lt_of_pos _ (by norm_num)
  have h128 : (128 * (N % 25000000 / 24)).tdiv 1041666 =
      128 * (N % 25000000 / 24) / 1041666 := Int.tdiv_eq_ediv (by omega) (by omega)
  have hP2 : (128 * (N % 25000000 / 24)).tmod 1041666 =
      128 * (N % 25000000 / 24) % 1041666 := Int.tmod_eq_emod (by omega) (by omega)
  constructor
  · simp only [fractionOK]
    norm_num
    omega
  · simp only [packedFieldsFit, h128, hP2]
    norm_num
    omega

/-- C9 counterexample: si5351_Calc at Fclk = 2200489 (correction 0) produces
an output fraction with num = denom = 733496 and denom > 1, violating the
claimed strict inequality num < denom. -/
theorem c9_counterexample :
    1 < (si5351_Calc 0 2200489 examplePLLConfig exampleOutputConfig).2.denom ∧
    ¬ ((si5351_Calc 0 2200489 examplePLLConfig exampleOutputConfig).2.num <
       (si5351_Calc 0 2200489 examplePLLConfig exampleOutputConfig).2.denom) := by
  decide

/-- Fraction and packed-field bounds for an integer output divider dv with
the trivial fraction 0/1. -/
lemma c9_outdiv_core (dv : ℤ) (hlo : 4 ≤ dv) (hhi : dv ≤ 1800) :
    fractionOK 0 1 ∧ packedFieldsFit dv 0 1 := by
  constructor
  · decide
  · simp only [packedFieldsFit, mul_zero, Int.zero_tdiv, Int.zero_tmod]
    norm_num
    omega

/-- C9 amended: with correction 0, every fraction produced by si5351_Calc and
si5351_CalcIQ satisfies denom in [1, 2^20], num in [0, 2^20-1] and num ≤ denom
(num = denom with denom > 1 is reachable, so the claimed strict num < denom is
weakened to num ≤ denom), and the derived packed fields fit their fixed widths
(P1: 18 bits, P2: 20 bits, P3: 20 bits). -/
theorem c9_fraction_bounds (Fclk : Int) (pll0 : si5351PLLConfig)
    (out0 : si5351OutputConfig) :
    (fractionOK (si5351_Calc 0 Fclk pll0 out0).1.num
        (si5351_Calc 0 Fclk pll0 out0).1.denom ∧
     fractionOK (si5351_Calc 0 Fclk pll0 out0).2.num
        (si5351_Calc 0 Fclk pll0 out0).2.denom ∧
     packedFieldsFit (si5351_Calc 0 Fclk pll0 out0).1.mult
        (si5351_Calc 0 Fclk pll0 out0).1.num (si5351_Calc 0 Fclk pll0 out0).1.denom ∧
     packedFieldsFit (si5351_Calc 0 Fclk pll0 out0).2.div
        (si5351_Calc 0 Fclk pll0 out0).2.num (si5351_Calc 0 Fclk pll0 out0).2.denom) ∧
    (fractionOK (si5351_CalcIQ 0 Fclk pll0 out0).1.num
        (si5351_CalcIQ 0 Fclk pll0 out0).1.denom ∧
     fractionOK (si5351_CalcIQ 0 Fclk pll0 out0).2.num
        (si5351_CalcIQ 0 Fclk pll0 out0).2.denom ∧
     packedFieldsFit (si5351_CalcIQ 0 Fclk pll0 out0).1.mult
        (si5351_CalcIQ 0 Fclk pll0 out0).1.num (si5351_CalcIQ 0 Fclk pll0 out0).1.denom ∧
     packedFieldsFit (si5351_CalcIQ 0 Fclk pll0 out0).2.div
        (si5351_CalcIQ 0 Fclk pll0 out0).2.num (si5351_CalcIQ 0 Fclk pll0 out0).2.denom) := by
  constructor
  · rcases lt_or_le Fclk 8000 with h | h
    · rw [calc_eval_lowclamp Fclk pll0 out0 h]
      exact ⟨(by decide : fractionOK 0 1), (by decide : fractionOK 416000 512000),
        (by decide : packedFieldsFit 36 0 1), (by decide : packedFieldsFit 1757 416000 512000)⟩
    · rcases lt_or_le Fclk 1000000 with h2 | h2
      · rw [calc_eval_low Fclk pll0 out0 h h2]
        exact ⟨(by decide : fractionOK 0 1), (c9_mid_core (Fclk * 64) (by omega) (by omega)).1,
          (by decide : packedFieldsFit 36 0 1), (c9_mid_core (Fclk * 64) (by omega) (by omega)).2⟩
      · rcases lt_or_le Fclk 81000000 with h3 | h3
        · rw [calc_eval_mid Fclk pll0 out0 h2 h3]
          exact ⟨(by decide : fractionOK 0 1), (c9_mid_core Fclk (by omega) h3).1,
            (by decide : packedFieldsFit 36 0 1), (c9_mid_core Fclk (by omega) h3).2⟩
        · rcases le_or_lt Fclk 160000000 with h4 | h4
          · rw [calc_eval_high Fclk pll0 out0 h3 h4]
            split_ifs with hx1 hx2
            · have hb := ediv_range_24_36 (4 * Fclk) (by omega) (by omega)
              have hc := c9_b24_core (4 * Fclk) (by omega) (by omega) (by omega)
              exact ⟨hc.1, (c9_outdiv_core 4 (by norm_num) (by norm_num)).1, hc.2,
                (c9_outdiv_core 4 (by norm_num) (by norm_num)).2⟩
            · have hb := ediv_range_24_36 (6 * Fclk) (by omega) (by omega)
              have hc := c9_b24_core (6 * Fclk) (by omega) (by omega) (by omega)
              exact ⟨hc.1, (c9_outdiv_core 6 (by norm_num) (by norm_num)).1, hc.2,
                (c9_outdiv_core 6 (by norm_num) (by norm_num)).2⟩
            · have hb := ediv_range_24_36 (8 * Fclk) (by omega) (by omega)
              have hc := c9_b24_core (8 * Fclk) (by omega) (by omega) (by omega)
              exact ⟨hc.1, (c9_outdiv_core 8 (by norm_num) (by norm_num)).1, hc.2,
                (c9_outdiv_core 8 (by norm_num) (by norm_num)).2⟩
          · rw [calc_eval_topclamp Fclk pll0 out0 h4]
            exact ⟨(by decide : fractionOK 625000 1041666), (by decide : fractionOK 0 1),
              (by decide : packedFieldsFit 25 625000 1041666),
              (by decide : packedFieldsFit 4 0 1)⟩
  · rcases lt_or_le Fclk 1400000 with h | h
    · rw [calciq_eval_lowclamp Fclk pll0 out0 h]
      exact ⟨(by decide : fractionOK 116666 1041666), (by decide : fractionOK 0 1),
        (by decide : packedFieldsFit 7 116666 1041666),
        (by decide : packedFieldsFit 127 0 1)⟩
    · rcases le_or_lt Fclk 100000000 with h2 | h2
      · rw [calciq_eval Fclk pll0 out0 h h2]
        split_ifs with hd1 hd2
        · have hb := ediv_range_7_36 (Fclk * 127) (by omega) (by omega)
          have hc := c9_b24_core (Fclk * 127) (by omega) hb.1 hb.2
          exact ⟨hc.1, (c9_outdiv_core 127 (by norm_num) (by norm_num)).1, hc.2,
            (c9_outdiv_core 127 (by norm_num) (by norm_num)).2⟩
        · have e := Int.ediv_add_emod 625000000 Fclk
          have m1 : 0 ≤ 625000000 % Fclk := Int.emod_nonneg _ (by omega)
          have m2 : 625000000 % Fclk < Fclk := Int.emod_lt_of_pos _ (by omega)
          have hb := ediv_range_7_36 (Fclk * (625000000 / Fclk)) (by linarith) (by linarith)
          have hc := c9_b24_core (Fclk * (625000000 / Fclk)) (by linarith) hb.1 hb.2
          have hdlo : 78 ≤ 625000000 / Fclk := by
            rw [Int.le_ediv_iff_mul_le (by omega)]; omega
          have hdhi : 625000000 / Fclk < 128 := by
            rw [Int.ediv_lt_iff_lt_mul (by omega)]; omega
          exact ⟨hc.1, (c9_outdiv_core (625000000 / Fclk) (by omega) (by omega)).1, hc.2,
            (c9_outdiv_core (625000000 / Fclk) (by omega) (by omega)).2⟩
        · have e := Int.ediv_add_emod 900000000 Fclk
          have m1 : 0 ≤ 900000000 % Fclk := Int.emod_nonneg _ (by omega)
          have m2 : 900000000 % Fclk < Fclk := Int.emod_lt_of_pos _ (by omega)
          have hb := ediv_range_7_36 (Fclk * (900000000 / Fclk)) (by linarith) (by linarith)
          have hc := c9_b24_core (Fclk * (900000000 / Fclk)) (by linarith) hb.1 hb.2
          have hdlo : 9 ≤ 900000000 / Fclk := by
            rw [Int.le_ediv_iff_mul_le (by omega)]; omega
          have hdhi : 900000000 / Fclk < 113 := by
            rw [Int.ediv_lt_iff_lt_mul (by omega)]; omega
          exact ⟨hc.1, (c9_outdiv_core (900000000 / Fclk) (by omega) (by omega)).1, hc.2,
            (c9_outdiv_core (900000000 / Fclk) (by omega) (by omega)).2⟩
      · rw [calciq_eval_topclamp Fclk pll0 out0 h2]
        exact ⟨(by decide : fractionOK 0 1041666), (by decide : fractionOK 0 1),
          (by decide : packedFieldsFit 36 0 1041666),
          (by decide : packedFieldsFit 9 0 1)⟩

/-- Error bound for the 900 MHz regime of si5351_Calc: with q, y, z computed by
the planner from F, the reconstructed frequency 900000000/(q + y/z) differs
from F by at most 7 Hz. -/
lemma calc_mid_err (F q y z : ℤ) (hF1 : 512000 ≤ F) (hF2 : F < 81000000)
    (hq : q = 900000000 / F) (hy : y = 900000000 % F / (F / 1048576 + 1))
    (hz : z = F / (F / 1048576 + 1)) :
    |(900000000 : ℚ) / ((q : ℚ) + (y : ℚ) / (z : ℚ)) - (F : ℚ)| ≤ 7 := by
  set t : ℤ := F / 1048576 + 1 with ht
  set r : ℤ := 900000000 % F with hr
  have ht1 : 1 ≤ t := by omega
  have ht78 : t ≤ 78 := by omega
  have hr0 : 0 ≤ r := by rw [hr]; exact Int.emod_nonneg _ (by omega)
  have hr1 : r < F := by rw [hr]; exact Int.emod_lt_of_pos _ (by omega)
  have hq11 : 11 ≤ q := by rw [hq, Int.le_ediv_iff_mul_le (by omega)]; omega
  have hy0 : 0 ≤ y := by rw [hy]; exact Int.ediv_nonneg hr0 (by omega)
  have hyz : y ≤ z := by rw [hy, hz]; exact Int.ediv_le_ediv (by omega) (by omega)
  have hz1 : 1 ≤ z := by rw [hz, Int.le_ediv_iff_mul_le (by omega)]; omega
  have e1 : F * q + r = 900000000 := by rw [hq, hr]; exact Int.ediv_add_emod 900000000 F
  have e2 : t * y + r % t = r := by rw [hy]; exact Int.ediv_add_emod r t
  have e3 : t * z + F % t = F := by rw [hz]; exact Int.ediv_add_emod F t
  set p : ℤ := r % t with hp
  set s : ℤ := F % t with hs2
  have hp0 : 0 ≤ p := by rw [hp]; exact Int.emod_nonneg _ (by omega)
  have hp1 : p < t := by rw [hp]; exact Int.emod_lt_of_pos _ (by omega)
  have hs0 : 0 ≤ s := by rw [hs2]; exact Int.emod_nonneg _ (by omega)
  have hs1 : s < t := by rw [hs2]; exact Int.emod_lt_of_pos _ (by omega)
  have hqz : 11 * 1 ≤ q * z := mul_le_mul hq11 hz1 (by norm_num) (by omega)
  have hd0 : (0:ℤ) < q * z + y := by linarith
  have key : 900000000 * z - F * (q * z + y) = p * z - s * y := by
    linear_combination (-z) * e1 + (-z) * e2 + y * e3
  have hub : 900000000 * z - F * (q * z + y) ≤ 7 * (q * z + y) := by
    rw [key]
    have b1 : p * z ≤ 77 * z := mul_le_mul_of_nonneg_right (by omega) (by omega)
    have b2 : 77 * z ≤ (7 * q) * z := mul_le_mul_of_nonneg_right (by omega) (by omega)
    have b3 : 0 ≤ s * y := mul_nonneg hs0 hy0
    linarith
  have hlb : -(7 * (q * z + y)) ≤ 900000000 * z - F * (q * z + y) := by
    rw [key]
    have b1 : s * y ≤ 77 * y := mul_le_mul_of_nonneg_right (by omega) hy0
    have b2 : (77:ℤ) * y ≤ 77 * z := mul_le_mul_of_nonneg_left hyz (by norm_num)
    have b3 : 77 * z ≤ (7 * q) * z := mul_le_mul_of_nonneg_right (by omega) (by omega)
    have b4 : 0 ≤ p * z := mul_nonneg hp0 (by omega)
    linarith
  have hzQ : (0:ℚ) < (z : ℚ) := by exact_mod_cast (by omega : (0:ℤ) < z)
  have hzne : (z : ℚ) ≠ 0 := ne_of_gt hzQ
  have hdQ : (0:ℚ) < ((q * z + y : ℤ) : ℚ) := by exact_mod_cast hd0
  have hdne : ((q * z + y : ℤ) : ℚ) ≠ 0 := ne_of_gt hdQ
  have hdQZ : ((q : ℚ) + (y : ℚ) / (z : ℚ)) = ((q * z + y : ℤ) : ℚ) / (z : ℚ) := by
    field_simp
  rw [hdQZ, div_div_eq_mul_div]
  have hrepr : (900000000 : ℚ) * (z : ℚ) / ((q * z + y : ℤ) : ℚ) - (F : ℚ) =
      ((900000000 * z - F * (q * z + y) : ℤ) : ℚ) / ((q * z + y : ℤ) : ℚ) := by
    field_simp
    ring
  rw [hrepr, abs_div, abs_of_pos hdQ, div_le_iff₀ hdQ, ← Int.cast_abs]
  have hZ : |900000000 * z - F * (q * z + y)| ≤ 7 * (q * z + y) := abs_le.mpr ⟨hlb, hub⟩
  calc ((|900000000 * z - F * (q * z + y)| : ℤ) : ℚ)
      ≤ ((7 * (q * z + y) : ℤ) : ℚ) := by exact_mod_cast hZ
    _ = 7 * ((q * z + y : ℤ) : ℚ) := by push_cast; ring

/-- Error bound for the scaled low regime of si5351_Calc: dividing the
reconstruction of the 64-scaled target by 2^6 keeps the error within 7 Hz
(in fact within 7/64 Hz). -/
lemma calc_mid_err64 (F q y z : ℤ) (hF1 : 500000 ≤ F) (hF2 : F < 1000000)
    (hq : q = 900000000 / (F * 64))
    (hy : y = 900000000 % (F * 64) / (F * 64 / 1048576 + 1))
    (hz : z = F * 64 / (F * 64 / 1048576 + 1)) :
    |(900000000 : ℚ) / (((q : ℚ) + (y : ℚ) / (z : ℚ)) * 64) - (F : ℚ)| ≤ 7 := by
  have hmain := calc_mid_err (F * 64) q y z (by omega) (by omega) hq hy hz
  have h64 : ((F * 64 : ℤ) : ℚ) = (F : ℚ) * 64 := by push_cast; ring
  rw [h64] at hmain
  rw [div_mul_eq_div_div]
  have hid : (900000000 : ℚ) / ((q : ℚ) + (y : ℚ) / (z : ℚ)) / 64 - (F : ℚ) =
      ((900000000 : ℚ) / ((q : ℚ) + (y : ℚ) / (z : ℚ)) - (F : ℚ) * 64) / 64 := by
    ring
  rw [hid, abs_div, show |(64:ℚ)| = 64 from by norm_num]
  rw [div_le_iff₀ (show (0:ℚ) < 64 by norm_num)]
  calc |(900000000 : ℚ) / ((q : ℚ) + (y : ℚ) / (z : ℚ)) - (F : ℚ) * 64| ≤ 7 := hmain
    _ ≤ 7 * 64 := by norm_num

/-- Error bound for the high regime of si5351_Calc: with the integer output
divider x in {4, 6, 8} and PLL fraction reduced by 24, the reconstruction
differs from F by at most 23/x < 6 Hz (stated as 7 to match the amended
claim). -/
lemma calc_high_err (F x a b : ℤ) (hx : x = 4 ∨ x = 6 ∨ x = 8)
    (ha : a = x * F / 25000000) (hb : b = x * F % 25000000 / 24) :
    |(25000000 : ℚ) * ((a : ℚ) + (b : ℚ) / 1041666) / (x : ℚ) - (F : ℚ)| ≤ 7 := by
  have hx4 : 4 ≤ x := by rcases hx with h | h | h <;> omega
  have hx9 : x ≤ 8 := by rcases hx with h | h | h <;> omega
  set r : ℤ := x * F % 25000000 with hr
  have hr0 : 0 ≤ r := by rw [hr]; exact Int.emod_nonneg _ (by norm_num)
  have hr1 : r < 25000000 := by rw [hr]; exact Int.emod_lt_of_pos _ (by norm_num)
  have e1 : 25000000 * a + r = x * F := by
    rw [ha, hr]; exact Int.ediv_add_emod (x * F) 25000000
  have e2 : 24 * b + r % 24 = r := by rw [hb]; exact Int.ediv_add_emod r 24
  set p : ℤ := r % 24 with hp
  have hp0 : 0 ≤ p := by rw [hp]; exact Int.emod_nonneg _ (by norm_num)
  have hp1 : p < 24 := by rw [hp]; exact Int.emod_lt_of_pos _ (by norm_num)
  have hb0 : 0 ≤ b := by omega
  have hb1 : b ≤ 1041666 := by omega
  have key : 25000000 * (a * 1041666 + b) - F * (x * 1041666) = 16 * b - p * 1041666 := by
    linear_combination 1041666 * e1 + 1041666 * e2
  have hxc : (0:ℤ) < x * 1041666 := by omega
  have habs : |25000000 * (a * 1041666 + b) - F * (x * 1041666)| ≤ 7 * (x * 1041666) := by
    rw [key, abs_le]
    constructor <;> omega
  have hxQ : (0:ℚ) < ((x * 1041666 : ℤ) : ℚ) := by exact_mod_cast hxc
  have hxQ0 : (0:ℚ) < (x : ℚ) := by exact_mod_cast (by omega : (0:ℤ) < x)
  have hrepr : (25000000 : ℚ) * ((a : ℚ) + (b : ℚ) / 1041666) / (x : ℚ) - (F : ℚ) =
      ((25000000 * (a * 1041666 + b) - F * (x * 1041666) : ℤ) : ℚ) /
        ((x * 1041666 : ℤ) : ℚ) := by
    field_simp
    ring
  rw [hrepr, abs_div, abs_of_pos hxQ, div_le_iff₀ hxQ, ← Int.cast_abs]
  calc ((|25000000 * (a * 1041666 + b) - F * (x * 1041666)| : ℤ) : ℚ)
      ≤ ((7 * (x * 1041666) : ℤ) : ℚ) := by exact_mod_cast habs
    _ = 7 * ((x * 1041666 : ℤ) : ℚ) := by push_cast; ring

/-- C1 counterexample: at Fclk = 80999969 (in the claimed range, correction 0,
Fxtal 25 MHz) the planner returns div 11, num 115388, denom 1038461 and the
exact reconstructed frequency is 80999975 + 1060926/1282051, about 6.82 Hz
above the target: the claimed 6 Hz bound fails. -/
theorem c1_counterexample :
    (500000 : ℤ) ≤ 80999969 ∧ (80999969 : ℤ) ≤ 112500000 ∧
    ¬ |reconFreq (si5351_Calc 0 80999969 examplePLLConfig exampleOutputConfig).1
        (si5351_Calc 0 80999969 examplePLLConfig exampleOutputConfig).2 -
        (80999969 : ℚ)| ≤ 6 := by
  refine ⟨by norm_num, by norm_num, ?_⟩
  have hc : si5351_Calc 0 80999969 examplePLLConfig exampleOutputConfig =
      ({ examplePLLConfig with mult := 36, num := 0, denom := 1 },
       { exampleOutputConfig with
          allowIntegerMode := true, rdiv := 0, div := 11, num := 115388,
          denom := 1038461 }) := by decide
  rw [hc]
  simp only [reconFreq]
  norm_num
  rw [abs_of_pos (by positivity : (0:ℚ) < 8743581 / 1282051)]
  norm_num

/-- C1 amended: for every target in [500000, 112500000] Hz with correction 0
and Fxtal 25 MHz, the frequency reconstructed in exact rational arithmetic
from the si5351_Calc parameters differs from the target by at most 7 Hz (the
claimed 6 Hz bound fails between about 75.6 MHz and the 81 MHz regime
boundary, with worst case about 6.82 Hz at 80999969 Hz). -/
theorem c1_error_le_7 (Fclk : ℤ) (pll0 : si5351PLLConfig) (out0 : si5351OutputConfig)
    (h1 : 500000 ≤ Fclk) (h2 : Fclk ≤ 112500000) :
    |reconFreq (si5351_Calc 0 Fclk pll0 out0).1 (si5351_Calc 0 Fclk pll0 out0).2 -
      (Fclk : ℚ)| ≤ 7 := by
  rcases lt_or_le Fclk 1000000 with hA | hA
  · rw [calc_eval_low Fclk pll0 out0 (by omega) hA]
    simp only [reconFreq]
    norm_num
    exact calc_mid_err64 Fclk _ _ _ h1 hA rfl rfl rfl
  · rcases lt_or_le Fclk 81000000 with hB | hB
    · rw [calc_eval_mid Fclk pll0 out0 hA hB]
      simp only [reconFreq]
      norm_num
      exact calc_mid_err Fclk _ _ _ (by omega) hB rfl rfl rfl
    · rw [calc_eval_high Fclk pll0 out0 hB (by omega)]
      rw [if_neg (show ¬ ((150000000:ℤ) ≤ Fclk) by omega)]
      rcases le_or_lt 100000000 Fclk with hC | hC
      · rw [if_pos hC]
        simp only [reconFreq]
        norm_num
        exact calc_high_err Fclk 6 _ _ (by norm_num) rfl rfl
      · rw [if_neg (show ¬ ((100000000:ℤ) ≤ Fclk) by omega)]
        simp only [reconFreq]
        norm_num
        exact calc_high_err Fclk 8 _ _ (by norm_num) rfl rfl

/-- Witness for c1_error_le_7 at the concrete in-range target 10 MHz. -/
theorem c1_error_le_7_witness :
    |reconFreq (si5351_Calc 0 10000000 examplePLLConfig exampleOutputConfig).1
        (si5351_Calc 0 10000000 examplePLLConfig exampleOutputConfig).2 -
      (10000000 : ℚ)| ≤ 7 :=
  c1_error_le_7 10000000 examplePLLConfig exampleOutputConfig (by norm_num) (by norm_num)
